import Mathlib

/-!
Shallow embedding of the CollectFi platform core (src/src/core/TradingEngine.ts,
src/src/core/CollectFi.ts, the VaultManager class, and the redemption-status
route of src/src/routes/vault.ts), together with theorems settling the frozen
claims about the natural-language specification.

Modelling conventions:
* JavaScript numbers are modelled as rationals (ℚ); all arithmetic in the
  translated code paths is exact in the source (no rounding is performed).
* `Map<string, X>` is modelled as a function `String → Option X`; `Map.set`
  is pointwise update (`mapSet`), `Map.get` is application.
* Methods that `throw` a `CollectFiError` are modelled as returning an
  `Except CollectFiError α` paired with the (unchanged or updated) state,
  so that frame conditions are expressible.
* `Date` fields (timestamps) are not modelled: no translated code path
  branches on them.  The boolean `processedAt` records only whether the
  `processedAt` timestamp of a redemption request has been assigned.
* Randomly generated identifiers (`generateOrderId`, `generateRedemptionId`)
  are passed in as explicit parameters.
-/

namespace CollectFi

/-- Error object thrown by the platform (class CollectFiError of
src/src/types/index.ts): a human-readable message and a stable code. -/
structure CollectFiError where
  message : String
  code : String
deriving DecidableEq, Repr

/-- Order side (enum OrderSide of src/src/types/index.ts). -/
inductive OrderSide where
  | buy
  | sell
deriving DecidableEq, Repr

/-- Order kind (enum OrderType of src/src/types/index.ts). -/
inductive OrderKind where
  | market
  | limit
deriving DecidableEq, Repr

/-- Order status (enum OrderStatus of src/src/types/index.ts).  The source
uses EXECUTED for the filled terminal state. -/
inductive OrderStatus where
  | pending
  | executed
  | cancelled
  | failed
deriving DecidableEq, Repr

/-- Redemption request status (enum RedemptionStatus of
src/src/types/index.ts). -/
inductive RedemptionStatus where
  | pending
  | processing
  | shipped
  | delivered
  | cancelled
deriving DecidableEq, Repr

/-- One asset entry of a user portfolio (interface PortfolioAsset of
src/src/types/index.ts). -/
structure PortfolioAsset where
  assetId : String
  mint : String
  quantity : ℚ
  averagePrice : ℚ
  currentValue : ℚ
  pnl : ℚ
  pnlPercentage : ℚ
deriving DecidableEq, Repr

/-- A user portfolio (interface UserPortfolio of src/src/types/index.ts). -/
structure UserPortfolio where
  userId : String
  walletAddress : String
  assets : List PortfolioAsset
  totalValue : ℚ
  totalValueUSD : ℚ
  pnl24h : ℚ
  pnl7d : ℚ
  pnl30d : ℚ
deriving DecidableEq, Repr

/-- Market data record for one asset (interface MarketData of
src/src/types/index.ts); the `lastUpdated` timestamp is not modelled. -/
structure MarketData where
  assetMint : String
  currentPrice : ℚ
  priceChange24h : ℚ
  priceChangePercentage24h : ℚ
  volume24h : ℚ
  marketCap : ℚ
  circulatingSupply : ℚ
  totalSupply : ℚ
  high24h : ℚ
  low24h : ℚ
deriving DecidableEq, Repr

/-- A trading order (interface TradingOrder of src/src/types/index.ts);
the `createdAt`, `executedAt` and `txHash` fields are not modelled. -/
structure TradingOrder where
  id : String
  userId : String
  assetMint : String
  kind : OrderKind
  side : OrderSide
  quantity : ℚ
  price : ℚ
  status : OrderStatus
deriving DecidableEq, Repr

/-- A redemption request (interface RedemptionRequest of
src/src/types/index.ts); the shipping address is kept opaque and the
`requestedAt` timestamp is not modelled.  `processedAt` records whether
the timestamp of that name has been assigned. -/
structure RedemptionRequest where
  id : String
  userId : String
  assetMint : String
  tokenQuantity : ℚ
  status : RedemptionStatus
  shippingAddress : String
  trackingNumber : Option String
  processedAt : Bool
deriving DecidableEq, Repr

/-- Pointwise update of a string-keyed map, the model of `Map.set`. -/
def mapSet {α : Type} (m : String → Option α) (k : String) (v : α) :
    String → Option α :=
  fun k' => if k' = k then some v else m k'

/-- The mutable state of the TradingEngine class: its three private maps. -/
structure TradingEngineState where
  orders : String → Option TradingOrder
  portfolios : String → Option UserPortfolio
  marketData : String → Option MarketData

/-- The mutable state of the VaultManager class restricted to redemption
requests (the vault/insurance maps are reference data untouched by the
redemption code paths). -/
structure VaultState where
  redemptionRequests : String → Option RedemptionRequest

/-- Replace the first element satisfying `p` by its image under `f`,
leaving everything else unchanged.  This is the functional rendering of
the source pattern `const x = list.find(pred); ...mutate x in place...`. -/
def updateFirst {α : Type} (f : α → α) (p : α → Bool) : List α → List α
  | [] => []
  | a :: as => if p a then f a :: as else a :: updateFirst f p as

namespace TradingEngine

/-- The fresh zero entry pushed by updateUserPortfolio when the portfolio
holds no entry for the traded mint (TradingEngine.ts lines 491-502). -/
def freshAsset (mint : String) : PortfolioAsset :=
  { assetId := mint, mint := mint, quantity := 0, averagePrice := 0,
    currentValue := 0, pnl := 0, pnlPercentage := 0 }

/-- The fresh empty portfolio created for a first-time wallet
(TradingEngine.ts lines 476-487). -/
def emptyPortfolio (walletAddress : String) : UserPortfolio :=
  { userId := walletAddress, walletAddress := walletAddress, assets := [],
    totalValue := 0, totalValueUSD := 0, pnl24h := 0, pnl7d := 0, pnl30d := 0 }

/-- The buy/sell mutation of one portfolio entry (TradingEngine.ts lines
504-516): a buy recomputes the weighted-average price from the old
quantity and then adds the bought quantity; a sell subtracts the sold
quantity and clamps a negative result to 0. -/
def applyFill (side : OrderSide) (qty price : ℚ) (a : PortfolioAsset) :
    PortfolioAsset :=
  match side with
  | .buy =>
      { a with
        averagePrice := (a.quantity * a.averagePrice + qty * price) /
          (a.quantity + qty),
        quantity := a.quantity + qty }
  | .sell =>
      { a with quantity := if a.quantity - qty < 0 then 0 else a.quantity - qty }

/-- The valuation block of updateUserPortfolio (TradingEngine.ts lines
518-527): recomputes currentValue, pnl and pnlPercentage of the touched
entry from the market data, or leaves them unchanged when the asset has
no market data. -/
def revalue (md : Option MarketData) (a : PortfolioAsset) : PortfolioAsset :=
  match md with
  | none => a
  | some m =>
      let cv := a.quantity * m.currentPrice
      let profit := cv - a.quantity * a.averagePrice
      { a with
        currentValue := cv,
        pnl := profit,
        pnlPercentage :=
          if 0 < a.averagePrice then
            profit / (a.quantity * a.averagePrice) * 100
          else 0 }

/-- The portfolio asset list after the in-place mutation of
TradingEngine.updateUserPortfolio (TradingEngine.ts lines 489-527), before
the final zero-quantity filter: the entry list of the (possibly fresh)
portfolio, extended with a fresh zero entry at the end when no entry for
the traded mint exists, with the fill and the revaluation applied to the
first entry for the traded mint. -/
def touchedAssets (st : TradingEngineState)
    (walletAddress assetMint : String) (qty price : ℚ) (side : OrderSide) :
    List PortfolioAsset :=
  let p := (st.portfolios walletAddress).getD (emptyPortfolio walletAddress)
  let isMint : PortfolioAsset → Bool := fun a => a.mint == assetMint
  let assets0 :=
    match p.assets.find? isMint with
    | some _ => p.assets
    | none => p.assets ++ [freshAsset assetMint]
  updateFirst
    (fun a => revalue (st.marketData assetMint) (applyFill side qty price a))
    isMint assets0

/-- The portfolio stored back by TradingEngine.updateUserPortfolio
(TradingEngine.ts lines 529-538): total value summed over the mutated
entry list, then every entry whose quantity is not strictly positive
removed. -/
def updatedPortfolio (st : TradingEngineState)
    (walletAddress assetMint : String) (qty price : ℚ) (side : OrderSide) :
    UserPortfolio :=
  let p := (st.portfolios walletAddress).getD (emptyPortfolio walletAddress)
  let assets1 := touchedAssets st walletAddress assetMint qty price side
  { p with
    assets := assets1.filter (fun a => decide (0 < a.quantity)),
    totalValue := (assets1.map (fun a => a.currentValue)).sum }

/-- TradingEngine.updateUserPortfolio (TradingEngine.ts lines 467-539):
fetches or creates the wallet portfolio, fetches or pushes the entry for
the traded mint, applies the fill and the revaluation to that entry,
recomputes the portfolio total value, removes every entry whose quantity
is not strictly positive, and stores the portfolio back. -/
def updateUserPortfolio (st : TradingEngineState)
    (walletAddress assetMint : String) (qty price : ℚ) (side : OrderSide) :
    TradingEngineState :=
  { st with
    portfolios := mapSet st.portfolios walletAddress
      (updatedPortfolio st walletAddress assetMint qty price side) }

/-- TradingEngine.updateMarketDataAfterTrade (TradingEngine.ts lines
432-462): a no-op for an unknown mint; otherwise sets the current price,
widens the 24h high/low, accumulates volume, and recomputes the market
cap as price times the TOTAL supply.  The `side` argument is received but
never used, exactly as in the source. -/
def updateMarketDataAfterTrade (st : TradingEngineState)
    (assetMint : String) (qty : ℚ) (side : OrderSide) (price : ℚ) :
    TradingEngineState :=
  match st.marketData assetMint with
  | none => st
  | some md =>
      let md1 :=
        { md with
          currentPrice := price,
          high24h := if price > md.high24h then price else md.high24h,
          low24h := if price < md.low24h then price else md.low24h,
          volume24h := md.volume24h + qty * price,
          marketCap := price * md.totalSupply }
      { st with marketData := mapSet st.marketData assetMint md1 }

/-- JavaScript truthiness of the optional price guard in
`if (maxPrice && currentPrice > maxPrice)`: an absent or zero bound is
falsy and disables the check. -/
def priceGuard (bound : Option ℚ) (violated : ℚ → Bool) : Bool :=
  match bound with
  | none => false
  | some b => (b != 0) && violated b

/-- TradingEngine.buyTokens (TradingEngine.ts lines 95-150): looks up the
market data (ASSET_NOT_FOUND otherwise), rejects when the current price
exceeds a truthy maxPrice bound (PRICE_EXCEEDED), then unconditionally
records the trade at the current market price and credits the full
requested quantity to the buyer portfolio.  The returned Solana
transaction is a placeholder carrying no information and is modelled as
`Unit`. -/
def buyTokens (st : TradingEngineState) (assetMint : String) (qty : ℚ)
    (buyer : String) (maxPrice : Option ℚ) :
    Except CollectFiError Unit × TradingEngineState :=
  match st.marketData assetMint with
  | none => (.error { message := "Asset not found", code := "ASSET_NOT_FOUND" }, st)
  | some md =>
      let currentPrice := md.currentPrice
      if priceGuard maxPrice (fun b => decide (currentPrice > b)) then
        (.error { message := "price exceeds maximum", code := "PRICE_EXCEEDED" }, st)
      else
        let st1 := updateMarketDataAfterTrade st assetMint qty .buy currentPrice
        let st2 := updateUserPortfolio st1 buyer assetMint qty currentPrice .buy
        (.ok (), st2)

/-- TradingEngine.sellTokens (TradingEngine.ts lines 155-218): looks up
the market data (ASSET_NOT_FOUND otherwise), rejects when the current
price is below a truthy minPrice bound (PRICE_TOO_LOW), rejects when the
seller portfolio has no entry for the mint or holds fewer tokens than
requested (INSUFFICIENT_TOKENS), then records the trade and debits the
seller portfolio. -/
def sellTokens (st : TradingEngineState) (assetMint : String) (qty : ℚ)
    (seller : String) (minPrice : Option ℚ) :
    Except CollectFiError Unit × TradingEngineState :=
  match st.marketData assetMint with
  | none => (.error { message := "Asset not found", code := "ASSET_NOT_FOUND" }, st)
  | some md =>
      let currentPrice := md.currentPrice
      if priceGuard minPrice (fun b => decide (currentPrice < b)) then
        (.error { message := "price below minimum", code := "PRICE_TOO_LOW" }, st)
      else
        let entry := (st.portfolios seller).bind
          (fun p => p.assets.find? (fun a => a.mint == assetMint))
        match entry with
        | none =>
            (.error { message := "Insufficient tokens to sell",
                      code := "INSUFFICIENT_TOKENS" }, st)
        | some a =>
            if a.quantity < qty then
              (.error { message := "Insufficient tokens to sell",
                        code := "INSUFFICIENT_TOKENS" }, st)
            else
              let st1 := updateMarketDataAfterTrade st assetMint qty .sell currentPrice
              let st2 := updateUserPortfolio st1 seller assetMint qty currentPrice .sell
              (.ok (), st2)

/-- TradingEngine.cancelOrder (TradingEngine.ts lines 255-283): an absent
order id returns false without error and without touching state; a
non-owner request throws UNAUTHORIZED; a non-pending order throws
ORDER_NOT_CANCELLABLE; otherwise the order status becomes cancelled and
true is returned. -/
def cancelOrder (st : TradingEngineState) (orderId userKey : String) :
    Except CollectFiError Bool × TradingEngineState :=
  match st.orders orderId with
  | none => (.ok false, st)
  | some o =>
      if o.userId ≠ userKey then
        (.error { message := "Cannot cancel order from another user",
                  code := "UNAUTHORIZED" }, st)
      else if o.status ≠ OrderStatus.pending then
        (.error { message := "Cannot cancel non-pending order",
                  code := "ORDER_NOT_CANCELLABLE" }, st)
      else
        (.ok true,
         { st with orders := mapSet st.orders orderId { o with status := .cancelled } })

/-- The portfolio entry the engine reports for a wallet and mint:
`portfolio?.assets.find((a) => a.mint === assetMint)` with an absent
portfolio propagating to an absent entry. -/
def getPositionEntry (st : TradingEngineState) (walletAddress assetMint : String) :
    Option PortfolioAsset :=
  (st.portfolios walletAddress).bind
    (fun p => p.assets.find? (fun a => a.mint == assetMint))

/-- The quantity a wallet holds of a mint: the found entry quantity, or 0
when the portfolio or the entry is absent. -/
def getPositionQuantity (st : TradingEngineState)
    (walletAddress assetMint : String) : ℚ :=
  match getPositionEntry st walletAddress assetMint with
  | none => 0
  | some a => a.quantity

/-- The invariant that every stored portfolio entry has non-negative
quantity. -/
def PortfoliosNonneg (st : TradingEngineState) : Prop :=
  ∀ w p, st.portfolios w = some p → ∀ a ∈ p.assets, 0 ≤ a.quantity

/-- One fill of the property-based sequence of claim C4: a buy or sell of
some quantity at some price for some mint, applied to one account. -/
structure Fill where
  mint : String
  side : OrderSide
  qty : ℚ
  price : ℚ
deriving DecidableEq, Repr

/-- Apply a sequence of fills to one account through
TradingEngine.updateUserPortfolio, in order. -/
def applyFills (st : TradingEngineState) (w : String) : List Fill → TradingEngineState
  | [] => st
  | f :: fs => applyFills (updateUserPortfolio st w f.mint f.qty f.price f.side) w fs

end TradingEngine

namespace VaultManager

/-- JavaScript truthiness of an optional tracking-number string: absent
and empty strings are falsy. -/
def trackingTruthy : Option String → Bool
  | none => false
  | some t => t != ""

/-- VaultManager.requestRedemption (VaultManager class, lines 108-138):
unconditionally creates a new pending RedemptionRequest for the hardcoded
full quantity of 100000 tokens and stores it under a fresh id.  No
holdings check happens here; the eligibility check lives in
CollectFi.requestRedemption. -/
def requestRedemption (vst : VaultState)
    (assetMint userKey shippingAddress requestId : String) :
    String × VaultState :=
  let req : RedemptionRequest :=
    { id := requestId, userId := userKey, assetMint := assetMint,
      tokenQuantity := 100000, status := .pending,
      shippingAddress := shippingAddress, trackingNumber := none,
      processedAt := false }
  (requestId,
   { vst with redemptionRequests := mapSet vst.redemptionRequests requestId req })

/-- VaultManager.updateRedemptionStatus (VaultManager class, lines
163-183): an absent request id returns false; otherwise the stored status
is overwritten with the requested one WITHOUT any transition validation,
the tracking number is stored when the new status is shipped and a truthy
tracking number was supplied, and the processedAt timestamp is assigned
when the new status is processing. -/
def updateRedemptionStatus (vst : VaultState) (requestId : String)
    (status : RedemptionStatus) (trackingNumber : Option String) :
    Bool × VaultState :=
  match vst.redemptionRequests requestId with
  | none => (false, vst)
  | some req0 =>
      let req1 := { req0 with status := status }
      let req2 :=
        if status = .shipped ∧ trackingTruthy trackingNumber = true then
          { req1 with trackingNumber := trackingNumber }
        else req1
      let req3 :=
        if status = .processing then { req2 with processedAt := true } else req2
      (true,
       { vst with redemptionRequests := mapSet vst.redemptionRequests requestId req3 })

/-- VaultManager.shipRedemption (VaultManager class, lines 216-242): an
absent request id returns false; a request not in processing status
throws INVALID_REDEMPTION_STATUS; otherwise delegates to
updateRedemptionStatus with status shipped and returns true. -/
def shipRedemption (vst : VaultState) (requestId trackingNumber : String) :
    Except CollectFiError Bool × VaultState :=
  match vst.redemptionRequests requestId with
  | none => (.ok false, vst)
  | some req =>
      if req.status ≠ RedemptionStatus.processing then
        (.error { message := "Redemption request is not in processing status",
                  code := "INVALID_REDEMPTION_STATUS" }, vst)
      else
        let r := updateRedemptionStatus vst requestId .shipped (some trackingNumber)
        (.ok true, r.2)

/-- VaultManager.markRedemptionDelivered (VaultManager class, lines
247-264): an absent request id returns false; a request not in shipped
status throws INVALID_REDEMPTION_STATUS; otherwise delegates to
updateRedemptionStatus with status delivered and returns true. -/
def markRedemptionDelivered (vst : VaultState) (requestId : String) :
    Except CollectFiError Bool × VaultState :=
  match vst.redemptionRequests requestId with
  | none => (.ok false, vst)
  | some req =>
      if req.status ≠ RedemptionStatus.shipped then
        (.error { message := "Redemption request is not in shipped status",
                  code := "INVALID_REDEMPTION_STATUS" }, vst)
      else
        let r := updateRedemptionStatus vst requestId .delivered none
        (.ok true, r.2)

/-- VaultManager.cancelRedemption (VaultManager class, lines 269-292): an
absent request id returns false; a non-owner throws UNAUTHORIZED; a
non-pending request throws REDEMPTION_NOT_CANCELLABLE; otherwise the
status becomes cancelled and true is returned. -/
def cancelRedemption (vst : VaultState) (requestId userId : String) :
    Except CollectFiError Bool × VaultState :=
  match vst.redemptionRequests requestId with
  | none => (.ok false, vst)
  | some req =>
      if req.userId ≠ userId then
        (.error { message := "Cannot cancel redemption request from another user",
                  code := "UNAUTHORIZED" }, vst)
      else if req.status ≠ RedemptionStatus.pending then
        (.error { message := "Cannot cancel non-pending redemption request",
                  code := "REDEMPTION_NOT_CANCELLABLE" }, vst)
      else
        let r := updateRedemptionStatus vst requestId .cancelled none
        (.ok true, r.2)

end VaultManager

/-- CollectFi.requestRedemption (src/src/core/CollectFi.ts lines 202-229):
reads the caller portfolio through the trading engine, throws
INSUFFICIENT_TOKENS_FOR_REDEMPTION when the portfolio has no entry for
the mint or the entry quantity is below the hardcoded 100000 (the
comment in the source reads: assuming 100,000 tokens per asset), and
otherwise delegates to VaultManager.requestRedemption, which creates the
pending request.  The wallet-connected precondition is modelled by taking
the connected wallet key as the `userKey` argument. -/
def requestRedemption (tst : TradingEngineState) (vst : VaultState)
    (userKey assetMint shippingAddress requestId : String) :
    Except CollectFiError String × VaultState :=
  match TradingEngine.getPositionEntry tst userKey assetMint with
  | none =>
      (.error { message := "Must own 100 percent of tokens to request redemption",
                code := "INSUFFICIENT_TOKENS_FOR_REDEMPTION" }, vst)
  | some a =>
      if a.quantity < 100000 then
        (.error { message := "Must own 100 percent of tokens to request redemption",
                  code := "INSUFFICIENT_TOKENS_FOR_REDEMPTION" }, vst)
      else
        let r := VaultManager.requestRedemption vst assetMint userKey
          shippingAddress requestId
        (.ok r.1, r.2)

namespace VaultRoute

/-- Outcome of the PUT /api/vault/redemption/:requestId/status handler
(src/src/routes/vault.ts lines 185-244), abstracting the HTTP responses:
a 200 success echo, the 400 INVALID_STATUS rejection, the 404 not-found
response, and the 400 STATUS_UPDATE_FAILED response wrapping an error
thrown by the vault manager. -/
inductive StatusUpdateOutcome where
  | ok (requestId : String) (status : RedemptionStatus)
  | invalidStatus
  | notFound
  | updateFailed (e : CollectFiError)
deriving DecidableEq, Repr

/-- The PUT /api/vault/redemption/:requestId/status handler
(src/src/routes/vault.ts lines 185-244), after authentication: the target
status must be one of processing, shipped, delivered, cancelled (pending
is rejected as INVALID_STATUS); a shipped target with a truthy tracking
number goes through VaultManager.shipRedemption and a delivered target
through VaultManager.markRedemptionDelivered, both of which validate the
current status; every other accepted target — processing, cancelled, and
shipped without a truthy tracking number — is forwarded to
VaultManager.updateRedemptionStatus with no tracking number and no
transition validation.  A thrown CollectFiError is caught and reported as
updateFailed; a false return is reported as notFound. -/
def updateStatusRoute (vst : VaultState) (requestId : String)
    (status : RedemptionStatus) (trackingNumber : Option String) :
    StatusUpdateOutcome × VaultState :=
  if status = RedemptionStatus.pending then
    (.invalidStatus, vst)
  else if status = RedemptionStatus.shipped ∧
      VaultManager.trackingTruthy trackingNumber = true then
    match VaultManager.shipRedemption vst requestId (trackingNumber.getD "") with
    | (.ok true, vst') => (.ok requestId status, vst')
    | (.ok false, vst') => (.notFound, vst')
    | (.error e, vst') => (.updateFailed e, vst')
  else if status = RedemptionStatus.delivered then
    match VaultManager.markRedemptionDelivered vst requestId with
    | (.ok true, vst') => (.ok requestId status, vst')
    | (.ok false, vst') => (.notFound, vst')
    | (.error e, vst') => (.updateFailed e, vst')
  else
    match VaultManager.updateRedemptionStatus vst requestId status none with
    | (true, vst') => (.ok requestId status, vst')
    | (false, vst') => (.notFound, vst')

end VaultRoute

/-! Concrete states used to instantiate the theorems: the sample market
data seeded by TradingEngine.initializeMarketData (TradingEngine.ts lines
55-90) and small hand-built portfolio and vault states. -/

/-- The mint address of the first seeded asset (TradingEngine.ts line 60). -/
def mint1 : String := "ROLEXDAYTONA1mintaddress123456789"

/-- The mint address of the second seeded asset (TradingEngine.ts line 73). -/
def mint2 : String := "ROLEXDAYTONA2mintaddress123456789"

/-- The market data seeded for the first asset (TradingEngine.ts lines
59-71). -/
def sampleMarketData1 : MarketData :=
  { assetMint := mint1, currentPrice := 180, priceChange24h := 26/5,
    priceChangePercentage24h := 18/5, volume24h := 2800,
    marketCap := 18000000, circulatingSupply := 100000,
    totalSupply := 100000, high24h := 185, low24h := 175 }

/-- The market data seeded for the second asset (TradingEngine.ts lines
72-84). -/
def sampleMarketData2 : MarketData :=
  { assetMint := mint2, currentPrice := 175, priceChange24h := -21/10,
    priceChangePercentage24h := -7/5, volume24h := 2200,
    marketCap := 17500000, circulatingSupply := 100000,
    totalSupply := 100000, high24h := 178, low24h := 172 }

/-- The engine state with no orders, no portfolios and no market data. -/
def emptyEngine : TradingEngineState :=
  { orders := fun _ => none, portfolios := fun _ => none,
    marketData := fun _ => none }

/-- The engine state right after initializeMarketData: the two seeded
market data records, no orders, no portfolios. -/
def initialEngine : TradingEngineState :=
  { orders := fun _ => none, portfolios := fun _ => none,
    marketData := fun k =>
      if k = mint1 then some sampleMarketData1
      else if k = mint2 then some sampleMarketData2
      else none }

/-- A portfolio holding a single asset entry, as stored by the engine. -/
def singlePortfolio (w m : String) (q avg : ℚ) : UserPortfolio :=
  { userId := w, walletAddress := w,
    assets := [{ assetId := m, mint := m, quantity := q, averagePrice := avg,
                 currentValue := 0, pnl := 0, pnlPercentage := 0 }],
    totalValue := 0, totalValueUSD := 0, pnl24h := 0, pnl7d := 0, pnl30d := 0 }

/-- The initial engine extended with one account holding `q` tokens of
the first asset at average price 180. -/
def engineWithPosition (q : ℚ) : TradingEngineState :=
  { initialEngine with
    portfolios := fun k =>
      if k = "accountA" then some (singlePortfolio "accountA" mint1 q 180)
      else none }

/-- An executed (filled) limit order owned by accountA. -/
def executedOrder : TradingOrder :=
  { id := "order1", userId := "accountA", assetMint := mint1, kind := .limit,
    side := .buy, quantity := 10, price := 170, status := .executed }

/-- The initial engine extended with the executed order stored. -/
def engineWithExecutedOrder : TradingEngineState :=
  { initialEngine with
    orders := fun k => if k = "order1" then some executedOrder else none }

/-- The vault state with no redemption requests. -/
def emptyVault : VaultState :=
  { redemptionRequests := fun _ => none }

/-- A redemption request in processing status. -/
def processingRequest : RedemptionRequest :=
  { id := "red1", userId := "accountA", assetMint := mint1,
    tokenQuantity := 100000, status := .processing,
    shippingAddress := "dest", trackingNumber := none, processedAt := true }

/-- The vault state holding exactly the processing request. -/
def vaultProcessing : VaultState :=
  { redemptionRequests := fun k =>
      if k = "red1" then some processingRequest else none }

/-- A market data record whose circulating supply differs from its total
supply (the MarketData interface of src/src/types/index.ts stores the two
independently). -/
def skewedMarketData : MarketData :=
  { assetMint := "mintX", currentPrice := 1, priceChange24h := 0,
    priceChangePercentage24h := 0, volume24h := 0, marketCap := 2,
    circulatingSupply := 1, totalSupply := 2, high24h := 1, low24h := 1 }

/-- The engine state holding only the skewed market data record. -/
def skewedEngine : TradingEngineState :=
  { orders := fun _ => none, portfolios := fun _ => none,
    marketData := fun k => if k = "mintX" then some skewedMarketData else none }

/-! Generic lemmas about the map model and the find/update/filter pattern. -/

theorem mapSet_same {α : Type} (m : String → Option α) (k : String) (v : α) :
    mapSet m k v k = some v := by
  simp [mapSet]

theorem mapSet_other {α : Type} (m : String → Option α) (k k' : String) (v : α)
    (h : k' ≠ k) : mapSet m k v k' = m k' := by
  simp [mapSet, h]

theorem find?_eq_head?_filter {α : Type} (p : α → Bool) (l : List α) :
    l.find? p = (l.filter p).head? := by
  induction l with
  | nil => rfl
  | cons x xs ih =>
      by_cases hx : p x
      · rw [List.find?_cons_of_pos xs hx, List.filter_cons_of_pos hx,
          List.head?_cons]
      · rw [List.find?_cons_of_neg xs hx, List.filter_cons_of_neg hx, ih]

theorem find?_updateFirst_filter {α : Type} (p q : α → Bool) (f : α → α)
    (l : List α) (a : α) (hfind : l.find? p = some a)
    (hp : p (f a) = true) (hq : q (f a) = true) :
    ((updateFirst f p l).filter q).find? p = some (f a) := by
  induction l with
  | nil => simp at hfind
  | cons x xs ih =>
      by_cases hx : p x
      · have hax : x = a := by
          rw [List.find?_cons_of_pos xs hx] at hfind
          exact Option.some.inj hfind
        subst hax
        show ((if p x then f x :: xs else x :: updateFirst f p xs).filter q).find? p
            = some (f x)
        rw [if_pos hx, List.filter_cons_of_pos hq, List.find?_cons_of_pos _ hp]
      · have hfind' : xs.find? p = some a := by
          rw [List.find?_cons_of_neg xs hx] at hfind
          exact hfind
        have ihx := ih hfind'
        show ((if p x then f x :: xs else x :: updateFirst f p xs).filter q).find? p
            = some (f a)
        rw [if_neg hx]
        by_cases hqx : q x
        · rw [List.filter_cons_of_pos hqx, List.find?_cons_of_neg _ hx]
          exact ihx
        · rw [List.filter_cons_of_neg hqx]
          exact ihx

theorem find?_updateFirst_filter_none {α : Type} (p q : α → Bool) (f : α → α)
    (l : List α) (a : α) (hfilter : l.filter p = [a]) (hq : q (f a) = false) :
    ((updateFirst f p l).filter q).find? p = none := by
  induction l with
  | nil => simp at hfilter
  | cons x xs ih =>
      by_cases hx : p x
      · rw [List.filter_cons_of_pos hx] at hfilter
        have hxa1 : x = a := (List.cons.inj hfilter).1
        have hxa2 : xs.filter p = [] := (List.cons.inj hfilter).2
        subst hxa1
        show ((if p x then f x :: xs else x :: updateFirst f p xs).filter q).find? p
            = none
        rw [if_pos hx, List.filter_cons_of_neg (by simp [hq])]
        rw [List.find?_eq_none]
        intro b hb
        exact (List.filter_eq_nil_iff.mp hxa2) b (List.mem_filter.mp hb).1
      · rw [List.filter_cons_of_neg hx] at hfilter
        have ihx := ih hfilter
        show ((if p x then f x :: xs else x :: updateFirst f p xs).filter q).find? p
            = none
        rw [if_neg hx]
        by_cases hqx : q x
        · rw [List.filter_cons_of_pos hqx, List.find?_cons_of_neg _ hx]
          exact ihx
        · rw [List.filter_cons_of_neg hqx]
          exact ihx

theorem find?_append_right {α : Type} (p : α → Bool) (l₁ l₂ : List α)
    (h : l₁.find? p = none) : (l₁ ++ l₂).find? p = l₂.find? p := by
  rw [List.find?_append, h, Option.none_or]

/-! Lemmas about the portfolio update of the trading engine. -/

namespace TradingEngine

theorem applyFill_mint (side : OrderSide) (qty price : ℚ) (a : PortfolioAsset) :
    (applyFill side qty price a).mint = a.mint := by
  cases side <;> rfl

theorem revalue_mint (md : Option MarketData) (a : PortfolioAsset) :
    (revalue md a).mint = a.mint := by
  cases md <;> rfl

theorem revalue_quantity (md : Option MarketData) (a : PortfolioAsset) :
    (revalue md a).quantity = a.quantity := by
  cases md <;> rfl

theorem revalue_averagePrice (md : Option MarketData) (a : PortfolioAsset) :
    (revalue md a).averagePrice = a.averagePrice := by
  cases md <;> rfl

theorem applyFill_buy_quantity (qty price : ℚ) (a : PortfolioAsset) :
    (applyFill .buy qty price a).quantity = a.quantity + qty :=
  rfl

theorem applyFill_buy_averagePrice (qty price : ℚ) (a : PortfolioAsset) :
    (applyFill .buy qty price a).averagePrice
      = (a.quantity * a.averagePrice + qty * price) / (a.quantity + qty) :=
  rfl

theorem applyFill_sell_quantity (qty price : ℚ) (a : PortfolioAsset) :
    (applyFill .sell qty price a).quantity
      = if a.quantity - qty < 0 then 0 else a.quantity - qty :=
  rfl

theorem applyFill_sell_averagePrice (qty price : ℚ) (a : PortfolioAsset) :
    (applyFill .sell qty price a).averagePrice = a.averagePrice :=
  rfl

theorem updateUserPortfolio_portfolios_same (st : TradingEngineState)
    (w m : String) (qty price : ℚ) (side : OrderSide) :
    (updateUserPortfolio st w m qty price side).portfolios w
      = some (updatedPortfolio st w m qty price side) :=
  mapSet_same _ _ _

theorem updateUserPortfolio_portfolios_other (st : TradingEngineState)
    (w w' m : String) (qty price : ℚ) (side : OrderSide) (h : w' ≠ w) :
    (updateUserPortfolio st w m qty price side).portfolios w'
      = st.portfolios w' :=
  mapSet_other _ _ _ _ h

theorem getPositionEntry_eq_getD (st : TradingEngineState) (w m : String) :
    getPositionEntry st w m
      = ((st.portfolios w).getD (emptyPortfolio w)).assets.find?
          (fun a => a.mint == m) := by
  unfold getPositionEntry
  cases st.portfolios w <;> simp [emptyPortfolio]

theorem getPositionEntry_update (st : TradingEngineState) (w m : String)
    (qty price : ℚ) (side : OrderSide) :
    getPositionEntry (updateUserPortfolio st w m qty price side) w m
      = ((touchedAssets st w m qty price side).filter
          (fun a => decide (0 < a.quantity))).find? (fun a => a.mint == m) := by
  unfold getPositionEntry
  rw [updateUserPortfolio_portfolios_same]
  rfl

theorem touchedAssets_of_found (st : TradingEngineState) (w m : String)
    (qty price : ℚ) (side : OrderSide) (a : PortfolioAsset)
    (h : ((st.portfolios w).getD (emptyPortfolio w)).assets.find?
        (fun x => x.mint == m) = some a) :
    touchedAssets st w m qty price side
      = updateFirst
          (fun x => revalue (st.marketData m) (applyFill side qty price x))
          (fun x => x.mint == m)
          ((st.portfolios w).getD (emptyPortfolio w)).assets := by
  unfold touchedAssets
  simp only [h]

theorem touchedAssets_of_missing (st : TradingEngineState) (w m : String)
    (qty price : ℚ) (side : OrderSide)
    (h : ((st.portfolios w).getD (emptyPortfolio w)).assets.find?
        (fun x => x.mint == m) = none) :
    touchedAssets st w m qty price side
      = updateFirst
          (fun x => revalue (st.marketData m) (applyFill side qty price x))
          (fun x => x.mint == m)
          (((st.portfolios w).getD (emptyPortfolio w)).assets ++ [freshAsset m]) := by
  unfold touchedAssets
  simp only [h]

theorem isMint_touch (st : TradingEngineState) (m : String) (qty price : ℚ)
    (side : OrderSide) (a : PortfolioAsset) (h : (a.mint == m) = true) :
    ((revalue (st.marketData m) (applyFill side qty price a)).mint == m) = true := by
  rw [revalue_mint, applyFill_mint]
  exact h

/-- After an update whose touched entry was found and keeps a positive
quantity, the reported position entry is exactly the touched entry. -/
theorem getPositionEntry_update_found (st : TradingEngineState)
    (w m : String) (qty price : ℚ) (side : OrderSide) (a : PortfolioAsset)
    (hfind : getPositionEntry st w m = some a)
    (hpos : 0 < (applyFill side qty price a).quantity) :
    getPositionEntry (updateUserPortfolio st w m qty price side) w m
      = some (revalue (st.marketData m) (applyFill side qty price a)) := by
  rw [getPositionEntry_eq_getD] at hfind
  rw [getPositionEntry_update, touchedAssets_of_found st w m qty price side a hfind]
  apply find?_updateFirst_filter _ _ _ _ a hfind
  · have hpa := @List.find?_some _ _ _ _ hfind
    exact isMint_touch st m qty price side a hpa
  · rw [decide_eq_true_eq, revalue_quantity]
    exact hpos

/-- After an update for a mint with no existing entry, the reported
position entry is the touched fresh entry, provided its quantity is
positive. -/
theorem getPositionEntry_update_missing (st : TradingEngineState)
    (w m : String) (qty price : ℚ) (side : OrderSide)
    (hfind : getPositionEntry st w m = none)
    (hpos : 0 < (applyFill side qty price (freshAsset m)).quantity) :
    getPositionEntry (updateUserPortfolio st w m qty price side) w m
      = some (revalue (st.marketData m) (applyFill side qty price (freshAsset m))) := by
  rw [getPositionEntry_eq_getD] at hfind
  rw [getPositionEntry_update, touchedAssets_of_missing st w m qty price side hfind]
  have hfresh : ((freshAsset m).mint == m) = true := by
    simp [freshAsset]
  have hfind2 : (((st.portfolios w).getD (emptyPortfolio w)).assets ++ [freshAsset m]).find?
      (fun x => x.mint == m) = some (freshAsset m) := by
    rw [find?_append_right _ _ _ hfind]
    exact List.find?_cons_of_pos _ hfresh
  apply find?_updateFirst_filter _ _ _ _ (freshAsset m) hfind2
  · exact isMint_touch st m qty price side (freshAsset m) hfresh
  · rw [decide_eq_true_eq, revalue_quantity]
    exact hpos

theorem updatedPortfolio_assets_pos (st : TradingEngineState) (w m : String)
    (qty price : ℚ) (side : OrderSide) :
    ∀ a ∈ (updatedPortfolio st w m qty price side).assets, 0 < a.quantity := by
  intro a ha
  simp only [updatedPortfolio, List.mem_filter, decide_eq_true_eq] at ha
  exact ha.2

theorem updateUserPortfolio_nonneg (st : TradingEngineState) (w m : String)
    (qty price : ℚ) (side : OrderSide) (h : PortfoliosNonneg st) :
    PortfoliosNonneg (updateUserPortfolio st w m qty price side) := by
  intro w' p hp a ha
  by_cases hw : w' = w
  · subst hw
    rw [updateUserPortfolio_portfolios_same] at hp
    cases Option.some.inj hp
    exact le_of_lt (updatedPortfolio_assets_pos st w' m qty price side a ha)
  · rw [updateUserPortfolio_portfolios_other st w w' m qty price side hw] at hp
    exact h w' p hp a ha

theorem getPositionEntry_nonneg (st : TradingEngineState) (w m : String)
    (a : PortfolioAsset) (h : PortfoliosNonneg st)
    (hE : getPositionEntry st w m = some a) : 0 ≤ a.quantity := by
  unfold getPositionEntry at hE
  cases hP : st.portfolios w with
  | none => rw [hP] at hE; exact absurd hE (by simp)
  | some p =>
      rw [hP] at hE
      simp only [Option.some_bind] at hE
      exact h w p hP a (List.mem_of_find?_eq_some hE)

theorem getPositionQuantity_nonneg (st : TradingEngineState) (w m : String)
    (h : PortfoliosNonneg st) : 0 ≤ getPositionQuantity st w m := by
  unfold getPositionQuantity
  cases hE : getPositionEntry st w m with
  | none => exact le_refl 0
  | some a => exact getPositionEntry_nonneg st w m a h hE

/-- A buy fill adds the bought quantity to the reported position
quantity, whether or not an entry already exists. -/
theorem getPositionQuantity_update_buy (st : TradingEngineState)
    (w m : String) (qty price : ℚ) (h : PortfoliosNonneg st) (hq : 0 < qty) :
    getPositionQuantity (updateUserPortfolio st w m qty price .buy) w m
      = getPositionQuantity st w m + qty := by
  cases hE : getPositionEntry st w m with
  | none =>
      have hpos : 0 < (applyFill .buy qty price (freshAsset m)).quantity := by
        rw [applyFill_buy_quantity]
        simpa [freshAsset] using hq
      have hres := getPositionEntry_update_missing st w m qty price .buy hE hpos
      unfold getPositionQuantity
      rw [hres, hE]
      show (revalue (st.marketData m) (applyFill .buy qty price (freshAsset m))).quantity
        = 0 + qty
      rw [revalue_quantity, applyFill_buy_quantity]
      simp [freshAsset]
  | some a =>
      have ha : 0 ≤ a.quantity := getPositionEntry_nonneg st w m a h hE
      have hpos : 0 < (applyFill .buy qty price a).quantity := by
        rw [applyFill_buy_quantity]
        linarith
      have hres := getPositionEntry_update_found st w m qty price .buy a hE hpos
      unfold getPositionQuantity
      rw [hres, hE]
      show (revalue (st.marketData m) (applyFill .buy qty price a)).quantity
        = a.quantity + qty
      rw [revalue_quantity, applyFill_buy_quantity]

theorem applyFills_nonneg (w : String) (fills : List Fill) :
    ∀ st : TradingEngineState, PortfoliosNonneg st →
      PortfoliosNonneg (applyFills st w fills) := by
  induction fills with
  | nil => intro st h; exact h
  | cons f fs ih =>
      intro st h
      exact ih _ (updateUserPortfolio_nonneg st w f.mint f.qty f.price f.side h)

/-- After a sell that drives the only entry for the mint to a
non-positive quantity, the entry is removed and the reported position is
absent. -/
theorem getPositionEntry_update_sold_out (st : TradingEngineState)
    (w m : String) (qty price : ℚ) (a : PortfolioAsset)
    (hfilter : ((st.portfolios w).getD (emptyPortfolio w)).assets.filter
        (fun x => x.mint == m) = [a])
    (hzero : (applyFill .sell qty price a).quantity ≤ 0) :
    getPositionEntry (updateUserPortfolio st w m qty price .sell) w m = none := by
  have hfind : ((st.portfolios w).getD (emptyPortfolio w)).assets.find?
      (fun x => x.mint == m) = some a := by
    rw [find?_eq_head?_filter, hfilter]
    rfl
  rw [getPositionEntry_update, touchedAssets_of_found st w m qty price .sell a hfind]
  apply find?_updateFirst_filter_none _ _ _ _ a hfilter
  rw [decide_eq_false_iff_not, revalue_quantity]
  exact not_lt.mpr hzero

theorem updateMarketDataAfterTrade_portfolios (st : TradingEngineState)
    (mint : String) (qty : ℚ) (side : OrderSide) (price : ℚ) :
    (updateMarketDataAfterTrade st mint qty side price).portfolios
      = st.portfolios := by
  unfold updateMarketDataAfterTrade
  cases st.marketData mint <;> rfl

theorem getPositionQuantity_congr (st st' : TradingEngineState) (w m : String)
    (h : st'.portfolios = st.portfolios) :
    getPositionQuantity st' w m = getPositionQuantity st w m := by
  unfold getPositionQuantity getPositionEntry
  rw [h]

theorem portfoliosNonneg_of_eq (st st' : TradingEngineState)
    (h : st'.portfolios = st.portfolios) (hn : PortfoliosNonneg st) :
    PortfoliosNonneg st' := by
  intro w p hp
  rw [h] at hp
  exact hn w p hp

theorem updateMarketDataAfterTrade_marketCap (st : TradingEngineState)
    (mint : String) (qty : ℚ) (side : OrderSide) (price : ℚ) (md : MarketData)
    (h : st.marketData mint = some md) :
    ((updateMarketDataAfterTrade st mint qty side price).marketData mint).map
        (fun x => x.marketCap)
      = some (price * md.totalSupply) := by
  unfold updateMarketDataAfterTrade
  rw [h]
  show ((mapSet st.marketData mint _) mint).map (fun x => x.marketCap) = _
  rw [mapSet_same]
  rfl

end TradingEngine

/-! Theorems settling the frozen claims. -/

/-- Claim C4: for every account and asset and every finite sequence of
buy/sell fills applied through TradingEngine.updateUserPortfolio to that
account (starting from any state whose stored portfolio entries all have
non-negative quantity, which the state with no portfolios satisfies
vacuously), the reported position quantity is non-negative after every
step of the sequence, i.e. after every prefix of the fill list. -/
theorem c4_position_quantity_nonneg (st : TradingEngineState)
    (h : TradingEngine.PortfoliosNonneg st) (w mint : String)
    (fills : List TradingEngine.Fill) (n : ℕ) :
    0 ≤ TradingEngine.getPositionQuantity
        (TradingEngine.applyFills st w (fills.take n)) w mint :=
  TradingEngine.getPositionQuantity_nonneg _ w mint
    (TradingEngine.applyFills_nonneg w (fills.take n) st h)

/-- Witness for claim C4 at a concrete input: a buy of 5 then a sell of 5
on the first seeded asset, starting from the initial engine state, keeps
the reported quantity non-negative after both steps. -/
theorem c4_position_quantity_nonneg_witness :
    0 ≤ TradingEngine.getPositionQuantity
        (TradingEngine.applyFills initialEngine "accountA"
          (([⟨mint1, .buy, 5, 180⟩, ⟨mint1, .sell, 5, 180⟩] :
            List TradingEngine.Fill).take 2)) "accountA" mint1 :=
  c4_position_quantity_nonneg initialEngine
    (by intro w p hp a ha; simp [initialEngine] at hp) "accountA" mint1 _ 2

/-- Claim C5: a buy fill of quantity qty at price price applied to an
existing position entry with prior quantity oldQty and prior average cost
oldAvg produces an entry with quantity oldQty + qty and average cost
(oldQty * oldAvg + qty * price) / (oldQty + qty), for engine-reachable
positions (prior quantity non-negative) and genuine fills (positive
quantity). -/
theorem c5_buy_weighted_average (st : TradingEngineState) (w m : String)
    (qty price : ℚ) (a : PortfolioAsset)
    (hE : TradingEngine.getPositionEntry st w m = some a)
    (ha : 0 ≤ a.quantity) (hq : 0 < qty) :
    ∃ b : PortfolioAsset,
      TradingEngine.getPositionEntry
          (TradingEngine.updateUserPortfolio st w m qty price .buy) w m
        = some b ∧
      b.quantity = a.quantity + qty ∧
      b.averagePrice
        = (a.quantity * a.averagePrice + qty * price) / (a.quantity + qty) := by
  have hpos : 0 < (TradingEngine.applyFill .buy qty price a).quantity := by
    rw [TradingEngine.applyFill_buy_quantity]
    linarith
  refine ⟨_, TradingEngine.getPositionEntry_update_found st w m qty price .buy a hE hpos,
    ?_, ?_⟩
  · rw [TradingEngine.revalue_quantity, TradingEngine.applyFill_buy_quantity]
  · rw [TradingEngine.revalue_averagePrice, TradingEngine.applyFill_buy_averagePrice]

/-- Witness for claim C5 at a concrete input: buying 10 at price 200 on a
position of 100000 at average 180 yields quantity 100010 and the weighted
average (100000 * 180 + 10 * 200) / (100000 + 10). -/
theorem c5_buy_weighted_average_witness :
    ∃ b : PortfolioAsset,
      TradingEngine.getPositionEntry
          (TradingEngine.updateUserPortfolio (engineWithPosition 100000)
            "accountA" mint1 10 200 .buy) "accountA" mint1
        = some b ∧
      b.quantity = 100000 + 10 ∧
      b.averagePrice = ((100000 : ℚ) * 180 + 10 * 200) / (100000 + 10) :=
  c5_buy_weighted_average (engineWithPosition 100000) "accountA" mint1 10 200
    { assetId := mint1, mint := mint1, quantity := 100000, averagePrice := 180,
      currentValue := 0, pnl := 0, pnlPercentage := 0 }
    (by decide) (by norm_num) (by norm_num)

/-- Claim C7: cancelling an order that is already in a terminal state
(executed, the code rendering of filled, or cancelled) through its owner
returns the ORDER_NOT_CANCELLABLE error and leaves the entire engine
state exactly as before the call.  (A non-owner request is rejected
earlier as UNAUTHORIZED, per the separate spec clause.) -/
theorem c7_cancel_terminal_not_cancellable (st : TradingEngineState)
    (orderId userKey : String) (o : TradingOrder)
    (ho : st.orders orderId = some o) (hown : o.userId = userKey)
    (hterm : o.status = .executed ∨ o.status = .cancelled) :
    TradingEngine.cancelOrder st orderId userKey
      = (.error { message := "Cannot cancel non-pending order",
                  code := "ORDER_NOT_CANCELLABLE" }, st) := by
  have h2 : o.status ≠ OrderStatus.pending := by
    rcases hterm with h | h <;> simp [h]
  simp [TradingEngine.cancelOrder, ho, hown, h2]

/-- Witness for claim C7 at a concrete input: cancelling the stored
executed order as its owner yields the ORDER_NOT_CANCELLABLE error and
the unchanged state. -/
theorem c7_cancel_terminal_not_cancellable_witness :
    TradingEngine.cancelOrder engineWithExecutedOrder "order1" "accountA"
      = (.error { message := "Cannot cancel non-pending order",
                  code := "ORDER_NOT_CANCELLABLE" }, engineWithExecutedOrder) :=
  c7_cancel_terminal_not_cancellable engineWithExecutedOrder "order1" "accountA"
    executedOrder (by decide) rfl (Or.inl rfl)

/-- Claim C9: cancelling an order id absent from the order store returns
false — not a NotFound error — and leaves the state untouched. -/
theorem c9_cancel_missing_returns_false (st : TradingEngineState)
    (orderId userKey : String) (h : st.orders orderId = none) :
    TradingEngine.cancelOrder st orderId userKey = (.ok false, st) := by
  simp [TradingEngine.cancelOrder, h]

/-- Witness for claim C9 at a concrete input: cancelling an unknown order
id on the initial engine returns false with the state unchanged. -/
theorem c9_cancel_missing_returns_false_witness :
    TradingEngine.cancelOrder initialEngine "missing-order" "accountA"
      = (.ok false, initialEngine) :=
  c9_cancel_missing_returns_false initialEngine "missing-order" "accountA" rfl

/-- Claim C10: after every portfolio update caused by a buy or sell, the
portfolio stored for the traded wallet contains no entry with quantity
at most 0: every remaining entry has strictly positive quantity (the
final filter removes the rest, so a fully-sold position is reported as
absent). -/
theorem c10_no_nonpositive_entries (st : TradingEngineState)
    (w m : String) (qty price : ℚ) (side : OrderSide) (p : UserPortfolio)
    (hp : (TradingEngine.updateUserPortfolio st w m qty price side).portfolios w
        = some p) :
    ∀ a ∈ p.assets, 0 < a.quantity := by
  rw [TradingEngine.updateUserPortfolio_portfolios_same] at hp
  cases Option.some.inj hp
  exact TradingEngine.updatedPortfolio_assets_pos st w m qty price side

/-- Witness for claim C10 at a concrete input: after buying 5 at price 2
into an empty engine, the entry stored for the traded wallet (the touched
fresh entry) has strictly positive quantity. -/
theorem c10_no_nonpositive_entries_witness :
    0 < (TradingEngine.revalue (emptyEngine.marketData "m")
          (TradingEngine.applyFill .buy 5 2 (TradingEngine.freshAsset "m"))).quantity := by
  have hpos : 0 < (TradingEngine.applyFill .buy 5 2 (TradingEngine.freshAsset "m")).quantity := by
    rw [TradingEngine.applyFill_buy_quantity]
    norm_num [TradingEngine.freshAsset]
  have hE := TradingEngine.getPositionEntry_update_missing emptyEngine "w" "m" 5 2 .buy
    rfl hpos
  have hfind : (TradingEngine.updatedPortfolio emptyEngine "w" "m" 5 2 .buy).assets.find?
      (fun a => a.mint == "m")
      = some (TradingEngine.revalue (emptyEngine.marketData "m")
          (TradingEngine.applyFill .buy 5 2 (TradingEngine.freshAsset "m"))) := by
    unfold TradingEngine.getPositionEntry at hE
    rw [TradingEngine.updateUserPortfolio_portfolios_same] at hE
    simpa using hE
  exact c10_no_nonpositive_entries emptyEngine "w" "m" 5 2 .buy _
    (TradingEngine.updateUserPortfolio_portfolios_same emptyEngine "w" "m" 5 2 .buy)
    _ (List.mem_of_find?_eq_some hfind)

/-- Claim C8: a sell fill applied to the (unique) position entry for a
mint leaves the average cost basis unchanged while the resulting quantity
stays positive, and removes the entry entirely — leaving no defined
average cost — when the resulting quantity reaches 0 (equivalently, when
the sold quantity is at least the held quantity, since the code clamps a
negative result to 0). -/
theorem c8_sell_average_cost_basis (st : TradingEngineState) (w m : String)
    (qty price : ℚ) (a : PortfolioAsset)
    (hfilter : ((st.portfolios w).getD (TradingEngine.emptyPortfolio w)).assets.filter
        (fun x => x.mint == m) = [a]) :
    (0 < a.quantity - qty →
      ∃ b : PortfolioAsset,
        TradingEngine.getPositionEntry
            (TradingEngine.updateUserPortfolio st w m qty price .sell) w m
          = some b ∧
        b.averagePrice = a.averagePrice ∧
        b.quantity = a.quantity - qty) ∧
    (a.quantity - qty ≤ 0 →
      TradingEngine.getPositionEntry
          (TradingEngine.updateUserPortfolio st w m qty price .sell) w m
        = none) := by
  have hfind : ((st.portfolios w).getD (TradingEngine.emptyPortfolio w)).assets.find?
      (fun x => x.mint == m) = some a := by
    rw [find?_eq_head?_filter, hfilter]
    rfl
  have hE : TradingEngine.getPositionEntry st w m = some a := by
    rw [TradingEngine.getPositionEntry_eq_getD]
    exact hfind
  constructor
  · intro hrem
    have hclamp : (TradingEngine.applyFill .sell qty price a).quantity
        = a.quantity - qty := by
      rw [TradingEngine.applyFill_sell_quantity, if_neg (not_lt.mpr (le_of_lt hrem))]
    have hpos : 0 < (TradingEngine.applyFill .sell qty price a).quantity := by
      rw [hclamp]
      exact hrem
    refine ⟨_, TradingEngine.getPositionEntry_update_found st w m qty price .sell a hE hpos,
      ?_, ?_⟩
    · rw [TradingEngine.revalue_averagePrice, TradingEngine.applyFill_sell_averagePrice]
    · rw [TradingEngine.revalue_quantity, hclamp]
  · intro hrem
    apply TradingEngine.getPositionEntry_update_sold_out st w m qty price a hfilter
    rw [TradingEngine.applyFill_sell_quantity]
    by_cases hc : a.quantity - qty < 0
    · rw [if_pos hc]
    · rw [if_neg hc]
      exact hrem

/-- Witness for claim C8 at a concrete input: selling 4 out of a position
of 100000 at average 180 keeps the average cost 180 and leaves quantity
100000 - 4. -/
theorem c8_sell_average_cost_basis_witness :
    ∃ b : PortfolioAsset,
      TradingEngine.getPositionEntry
          (TradingEngine.updateUserPortfolio (engineWithPosition 100000)
            "accountA" mint1 4 180 .sell) "accountA" mint1
        = some b ∧
      b.averagePrice
        = ({ assetId := mint1, mint := mint1, quantity := 100000,
             averagePrice := 180, currentValue := 0, pnl := 0,
             pnlPercentage := 0 } : PortfolioAsset).averagePrice ∧
      b.quantity
        = ({ assetId := mint1, mint := mint1, quantity := 100000,
             averagePrice := 180, currentValue := 0, pnl := 0,
             pnlPercentage := 0 } : PortfolioAsset).quantity - 4 :=
  (c8_sell_average_cost_basis (engineWithPosition 100000) "accountA" mint1 4 180
      { assetId := mint1, mint := mint1, quantity := 100000, averagePrice := 180,
        currentValue := 0, pnl := 0, pnlPercentage := 0 }
      (by decide)).1
    (by norm_num)

/-- Counterexample to claim C6 as stated: on a market data record whose
circulating supply (1) differs from its total supply (2), a recorded
trade at price 3 sets the market cap to 3 times the TOTAL supply (6),
not 3 times the circulating supply (3).  The claim is false at this
concrete input. -/
theorem c6_counterexample :
    ((TradingEngine.updateMarketDataAfterTrade skewedEngine "mintX" 1 .buy 3).marketData
        "mintX").map (fun md => md.marketCap)
      ≠ some (3 * skewedMarketData.circulatingSupply) := by
  rw [TradingEngine.updateMarketDataAfterTrade_marketCap skewedEngine "mintX" 1 .buy 3
    skewedMarketData rfl]
  simp only [ne_eq, Option.some.injEq, skewedMarketData]
  norm_num

/-- Claim C6 amended: after every recorded trade at price p for an asset
with stored market data, the market cap is recomputed as p times the
asset's TOTAL supply (TradingEngine.ts line 456 uses totalSupply, not
circulatingSupply). -/
theorem c6_market_cap_uses_total_supply (st : TradingEngineState)
    (mint : String) (qty : ℚ) (side : OrderSide) (price : ℚ) (md : MarketData)
    (h : st.marketData mint = some md) :
    ((TradingEngine.updateMarketDataAfterTrade st mint qty side price).marketData
        mint).map (fun x => x.marketCap)
      = some (price * md.totalSupply) :=
  TradingEngine.updateMarketDataAfterTrade_marketCap st mint qty side price md h

/-- Witness for the amended claim C6 at a concrete input: a trade at
price 3 on the skewed record yields market cap 3 times its total
supply. -/
theorem c6_market_cap_uses_total_supply_witness :
    ((TradingEngine.updateMarketDataAfterTrade skewedEngine "mintX" 1 .buy 3).marketData
        "mintX").map (fun x => x.marketCap)
      = some (3 * skewedMarketData.totalSupply) :=
  c6_market_cap_uses_total_supply skewedEngine "mintX" 1 .buy 3 skewedMarketData rfl

/-- Counterexample to claim C1 as stated: an account holding 100001
tokens of the first asset — more than the asset's total supply of 100000
— can still request redemption successfully, so success is NOT equivalent
to the position quantity being equal to the total supply at call time. -/
theorem c1_counterexample :
    (requestRedemption (engineWithPosition 100001) emptyVault "accountA" mint1
        "dest" "red1").1 = .ok "red1" ∧
    TradingEngine.getPositionQuantity (engineWithPosition 100001) "accountA" mint1
      ≠ (((engineWithPosition 100001).marketData mint1).map
          (fun md => md.totalSupply)).getD 0 := by
  constructor
  · rfl
  · decide

/-- Claim C1 amended: requestRedemption succeeds — creating a new pending
RedemptionRequest for the hardcoded 100000 tokens — exactly when the
account's position quantity for the asset is AT LEAST the hardcoded
100000 (the full supply of the seeded assets); any smaller position,
including one a single token short, fails with
INSUFFICIENT_TOKENS_FOR_REDEMPTION and leaves the vault state unchanged,
so no request is created. -/
theorem c1_redemption_threshold (tst : TradingEngineState) (vst : VaultState)
    (userKey assetMint shipping reqId : String) :
    (100000 ≤ TradingEngine.getPositionQuantity tst userKey assetMint →
      (requestRedemption tst vst userKey assetMint shipping reqId).1 = .ok reqId ∧
      (requestRedemption tst vst userKey assetMint shipping reqId).2.redemptionRequests
          reqId
        = some { id := reqId, userId := userKey, assetMint := assetMint,
                 tokenQuantity := 100000, status := .pending,
                 shippingAddress := shipping, trackingNumber := none,
                 processedAt := false }) ∧
    (TradingEngine.getPositionQuantity tst userKey assetMint < 100000 →
      (requestRedemption tst vst userKey assetMint shipping reqId).1
        = .error { message := "Must own 100 percent of tokens to request redemption",
                   code := "INSUFFICIENT_TOKENS_FOR_REDEMPTION" } ∧
      (requestRedemption tst vst userKey assetMint shipping reqId).2 = vst) := by
  cases hE : TradingEngine.getPositionEntry tst userKey assetMint with
  | none =>
      have hq : TradingEngine.getPositionQuantity tst userKey assetMint = 0 := by
        unfold TradingEngine.getPositionQuantity
        rw [hE]
      constructor
      · intro hge
        rw [hq] at hge
        norm_num at hge
      · intro _
        unfold requestRedemption
        rw [hE]
        exact ⟨rfl, rfl⟩
  | some a =>
      have hq : TradingEngine.getPositionQuantity tst userKey assetMint
          = a.quantity := by
        unfold TradingEngine.getPositionQuantity
        rw [hE]
      constructor
      · intro hge
        rw [hq] at hge
        have hlt : ¬ a.quantity < 100000 := not_lt.mpr hge
        unfold requestRedemption
        rw [hE]
        show ((if a.quantity < 100000 then _ else _ :
            Except CollectFiError String × VaultState).1 = _) ∧ _
        rw [if_neg hlt]
        refine ⟨rfl, ?_⟩
        show (if a.quantity < 100000 then _ else _ :
            Except CollectFiError String × VaultState).2.redemptionRequests reqId = _
        rw [if_neg hlt]
        exact mapSet_same _ _ _
      · intro hlt
        rw [hq] at hlt
        unfold requestRedemption
        rw [hE]
        constructor
        · show (if a.quantity < 100000 then _ else _ :
              Except CollectFiError String × VaultState).1 = _
          rw [if_pos hlt]
        · show (if a.quantity < 100000 then _ else _ :
              Except CollectFiError String × VaultState).2 = _
          rw [if_pos hlt]

/-- Witness for the amended claim C1 at a concrete input: an account
holding exactly 100000 tokens can request redemption, and the stored
request is pending. -/
theorem c1_redemption_threshold_witness :
    (requestRedemption (engineWithPosition 100000) emptyVault "accountA" mint1
        "dest" "red1").1 = .ok "red1" ∧
    (requestRedemption (engineWithPosition 100000) emptyVault "accountA" mint1
        "dest" "red1").2.redemptionRequests "red1"
      = some { id := "red1", userId := "accountA", assetMint := mint1,
               tokenQuantity := 100000, status := .pending,
               shippingAddress := "dest", trackingNumber := none,
               processedAt := false } :=
  (c1_redemption_threshold (engineWithPosition 100000) emptyVault "accountA" mint1
      "dest" "red1").1 (by decide)

/-- Counterexample to claim C3 as stated: a market buy of 100000 tokens
on the freshly initialized engine — where no counterparty liquidity
exists anywhere (there is no order book at all and no resting order) —
succeeds and credits the full quantity to the buyer, instead of failing
with an InsufficientLiquidity error and committing no fill. -/
theorem c3_counterexample :
    (TradingEngine.buyTokens initialEngine mint1 100000 "accountB" none).1
      = .ok () ∧
    TradingEngine.getPositionQuantity
        (TradingEngine.buyTokens initialEngine mint1 100000 "accountB" none).2
        "accountB" mint1 = 100000 := by
  have hnn0 : TradingEngine.PortfoliosNonneg initialEngine := by
    intro w p hp a ha
    simp [initialEngine] at hp
  have hports := TradingEngine.updateMarketDataAfterTrade_portfolios initialEngine
    mint1 100000 .buy 180
  have hnn1 := TradingEngine.portfoliosNonneg_of_eq initialEngine _ hports hnn0
  constructor
  · rfl
  · have hsnd : (TradingEngine.buyTokens initialEngine mint1 100000 "accountB" none).2
        = TradingEngine.updateUserPortfolio
            (TradingEngine.updateMarketDataAfterTrade initialEngine mint1 100000
              .buy 180)
            "accountB" mint1 100000 180 .buy := rfl
    rw [hsnd,
      TradingEngine.getPositionQuantity_update_buy _ "accountB" mint1 100000 180
        hnn1 (by norm_num),
      TradingEngine.getPositionQuantity_congr initialEngine _ "accountB" mint1
        hports]
    have h0 : TradingEngine.getPositionQuantity initialEngine "accountB" mint1
        = 0 := rfl
    rw [h0]
    norm_num

/-- Claim C3 amended: buyTokens performs no liquidity check at all —
there is no order book and no InsufficientLiquidity error in the code.
For every state with market data for the mint, every buyer and every
positive quantity, a market buy (no max-price bound) succeeds and credits
the full requested quantity at the current market price, on top of
whatever the buyer already held. -/
theorem c3_market_buy_always_fills (st : TradingEngineState)
    (mint buyer : String) (qty : ℚ) (md : MarketData)
    (hmd : st.marketData mint = some md)
    (hnn : TradingEngine.PortfoliosNonneg st) (hq : 0 < qty) :
    (TradingEngine.buyTokens st mint qty buyer none).1 = .ok () ∧
    TradingEngine.getPositionQuantity
        (TradingEngine.buyTokens st mint qty buyer none).2 buyer mint
      = TradingEngine.getPositionQuantity st buyer mint + qty := by
  have hfst : (TradingEngine.buyTokens st mint qty buyer none).1 = .ok () := by
    unfold TradingEngine.buyTokens
    rw [hmd]
    rfl
  have hsnd : (TradingEngine.buyTokens st mint qty buyer none).2
      = TradingEngine.updateUserPortfolio
          (TradingEngine.updateMarketDataAfterTrade st mint qty .buy md.currentPrice)
          buyer mint qty md.currentPrice .buy := by
    unfold TradingEngine.buyTokens
    rw [hmd]
    rfl
  have hports := TradingEngine.updateMarketDataAfterTrade_portfolios st mint qty
    .buy md.currentPrice
  refine ⟨hfst, ?_⟩
  rw [hsnd,
    TradingEngine.getPositionQuantity_update_buy _ buyer mint qty md.currentPrice
      (TradingEngine.portfoliosNonneg_of_eq st _ hports hnn) hq,
    TradingEngine.getPositionQuantity_congr st _ buyer mint hports]

/-- Witness for the amended claim C3 at a concrete input: a market buy of
5 tokens of the first seeded asset by a fresh account succeeds and raises
that account's position by 5. -/
theorem c3_market_buy_always_fills_witness :
    (TradingEngine.buyTokens initialEngine mint1 5 "accountC" none).1 = .ok () ∧
    TradingEngine.getPositionQuantity
        (TradingEngine.buyTokens initialEngine mint1 5 "accountC" none).2
        "accountC" mint1
      = TradingEngine.getPositionQuantity initialEngine "accountC" mint1 + 5 :=
  c3_market_buy_always_fills initialEngine mint1 "accountC" 5 sampleMarketData1
    rfl (by intro w p hp a ha; simp [initialEngine] at hp) (by norm_num)

/-- Counterexample to claim C2 as stated: a redemption request in
processing status can be moved to cancelled through the administrative
status route — the transition the claim says must fail with
InvalidTransition and leave the status unchanged — and the route reports
success while the stored status becomes cancelled. -/
theorem c2_counterexample :
    (VaultRoute.updateStatusRoute vaultProcessing "red1" .cancelled none).1
      = .ok "red1" .cancelled ∧
    ((VaultRoute.updateStatusRoute vaultProcessing "red1" .cancelled
        none).2.redemptionRequests "red1").map (fun r => r.status)
      = some .cancelled := by
  exact ⟨rfl, rfl⟩

/-- Claim C2 amended: the status route guards only two transitions —
moving to shipped with a truthy tracking number requires current status
processing, and moving to delivered requires current status shipped; both
otherwise fail with the INVALID_REDEMPTION_STATUS error (surfaced as a
400 STATUS_UPDATE_FAILED response) and leave the vault state unchanged.
Moving to processing or to cancelled is applied unconditionally to any
stored request, whatever its current status — so backward transitions,
transitions out of delivered or cancelled, and processing to cancelled
all succeed. -/
theorem c2_status_route_transition_rules (vst : VaultState)
    (requestId : String) (target : RedemptionStatus) (tn : Option String)
    (req : RedemptionRequest)
    (hreq : vst.redemptionRequests requestId = some req) :
    (target = .processing ∨ target = .cancelled →
      (VaultRoute.updateStatusRoute vst requestId target tn).1
        = .ok requestId target ∧
      ((VaultRoute.updateStatusRoute vst requestId target
          tn).2.redemptionRequests requestId).map (fun r => r.status)
        = some target) ∧
    (target = .shipped → VaultManager.trackingTruthy tn = true →
      req.status ≠ .processing →
      VaultRoute.updateStatusRoute vst requestId target tn
        = (.updateFailed { message := "Redemption request is not in processing status",
                           code := "INVALID_REDEMPTION_STATUS" }, vst)) ∧
    (target = .delivered → req.status ≠ .shipped →
      VaultRoute.updateStatusRoute vst requestId target tn
        = (.updateFailed { message := "Redemption request is not in shipped status",
                           code := "INVALID_REDEMPTION_STATUS" }, vst)) ∧
    (target = .shipped → VaultManager.trackingTruthy tn = true →
      req.status = .processing →
      (VaultRoute.updateStatusRoute vst requestId target tn).1
        = .ok requestId target ∧
      ((VaultRoute.updateStatusRoute vst requestId target
          tn).2.redemptionRequests requestId).map (fun r => r.status)
        = some .shipped) ∧
    (target = .delivered → req.status = .shipped →
      (VaultRoute.updateStatusRoute vst requestId target tn).1
        = .ok requestId target ∧
      ((VaultRoute.updateStatusRoute vst requestId target
          tn).2.redemptionRequests requestId).map (fun r => r.status)
        = some .delivered) := by
  refine ⟨?_, ?_, ?_, ?_, ?_⟩
  · rintro (rfl | rfl) <;>
      simp [VaultRoute.updateStatusRoute, VaultManager.updateRedemptionStatus,
        hreq, mapSet_same]
  · rintro rfl htn hst
    simp [VaultRoute.updateStatusRoute, VaultManager.shipRedemption, hreq, htn, hst]
  · rintro rfl hst
    simp [VaultRoute.updateStatusRoute, VaultManager.markRedemptionDelivered,
      hreq, hst]
  · rintro rfl htn hst
    cases tn with
    | none => exact absurd htn (by simp [VaultManager.trackingTruthy])
    | some t =>
        have ht : (t != "") = true := htn
        simp [VaultRoute.updateStatusRoute, VaultManager.shipRedemption,
          VaultManager.updateRedemptionStatus, VaultManager.trackingTruthy,
          hreq, hst, ht, mapSet_same]
  · rintro rfl hst
    simp [VaultRoute.updateStatusRoute, VaultManager.markRedemptionDelivered,
      VaultManager.updateRedemptionStatus, hreq, hst, mapSet_same]

/-- Witness for the amended claim C2 at a concrete input: moving the
stored processing request to shipped with tracking number TRACK1
succeeds and stores status shipped. -/
theorem c2_status_route_transition_rules_witness :
    (VaultRoute.updateStatusRoute vaultProcessing "red1" .shipped
        (some "TRACK1")).1 = .ok "red1" .shipped ∧
    ((VaultRoute.updateStatusRoute vaultProcessing "red1" .shipped
        (some "TRACK1")).2.redemptionRequests "red1").map (fun r => r.status)
      = some .shipped :=
  (c2_status_route_transition_rules vaultProcessing "red1" .shipped
      (some "TRACK1") processingRequest rfl).2.2.2.1 rfl rfl rfl

end CollectFi
